import Mathlib

/-!
Verification of the price-monitor server (`src/index.ts`).

The TypeScript source is a single class `PriceMonitorServer` that
  * keeps two maps of last-known prices (`lastBinancePrices`, `lastSerumPrices`),
  * computes a fee-adjusted spread (`calculatePriceDifference`),
  * answers client `SUBSCRIBE` messages with one-off snapshots
    (`handleSubscription`, `sendSinglePairData`, `sendAllPairData`),
  * broadcasts the full snapshot to all open clients (`broadcastPrices`),
  * ingests a Binance ticker stream and polls Serum order books
    (`startBinanceWebSockets`, `updateAllSerumPrices`).

The embedding below models JavaScript numbers as either NaN or an exact
rational (`JSNumber`), the two price maps as functions from pair names to
optional stored numbers, and each event handler as a pure function from
server state and inbound data to the new state together with the list of
messages sent to clients.  Handlers that can raise an uncaught exception
are given an `Except` result type; a `.error` value marks an exception
escaping the handler.
-/

/-- A JavaScript number as it can end up in the price maps: either `NaN`
(for instance the result of `parseFloat` on a non-numeric string) or an
exact rational standing for an ordinary finite value. -/
inductive JSNumber where
  | nan : JSNumber
  | val : ℚ → JSNumber
deriving DecidableEq, Repr

/-- JavaScript truthiness of a number: `NaN` and `0` are falsy, every
other number is truthy.  Used for `if (binancePrice && serumPrice)` and
`if (bestBid && bestAsk)` in the source. -/
def JSNumber.truthy : JSNumber → Bool
  | .nan => false
  | .val q => decide (q ≠ 0)

/-- A `Map<string, number>` as used for `lastBinancePrices` and
`lastSerumPrices`: absent keys read as `undefined` (here `none`). -/
def PriceMap : Type := String → Option JSNumber

/-- A freshly constructed empty `Map`. -/
def PriceMap.empty : PriceMap := fun _ => none

/-- `map.set(k, v)` -/
def PriceMap.set (m : PriceMap) (k : String) (v : JSNumber) : PriceMap :=
  fun q => if q = k then some v else m q

/-- `map.get(k)` -/
def PriceMap.get (m : PriceMap) (k : String) : Option JSNumber := m k

/-- `interface PairConfig` from the source. -/
structure PairConfig where
  serumMarketAddress : String
  binanceSymbol : String
  name : String
  programId : String
deriving DecidableEq, Repr

/-- The static `TRADING_PAIRS` table from the source. -/
def TRADING_PAIRS : List PairConfig :=
  [ { serumMarketAddress := "CVfYa8RGXnuDBeGmniCcdkBwoLqVxh92xB1JqgRQx3F"
    , binanceSymbol := "BTCUSDC"
    , name := "BTC/USDC"
    , programId := "EUqojwWA2rd19FZrzeBncJsm38Jm1hEhE3zsmX3bRc2o" }
  , { serumMarketAddress := "H5uzEytiByuXt964KampmuNCurNDwkVVypkym75J2DQW"
    , binanceSymbol := "ETHUSDC"
    , name := "ETH/USDC"
    , programId := "EUqojwWA2rd19FZrzeBncJsm38Jm1hEhE3zsmX3bRc2o" }
  , { serumMarketAddress := "7xMDbYTCqQEcK2aM9LbetGtNFJpzKdfXzLL5juaLh4GJ"
    , binanceSymbol := "SOLUSDC"
    , name := "SOL/USDC"
    , programId := "EUqojwWA2rd19FZrzeBncJsm38Jm1hEhE3zsmX3bRc2o" } ]

/-- `private binanceFeeRate = 0.001` -/
def binanceFeeRate : ℚ := 1 / 1000

/-- `private solanaFeeRate = 0.003` -/
def solanaFeeRate : ℚ := 3 / 1000

/-- `private profitabilityThreshold = 0.005` (defined but never consulted). -/
def profitabilityThreshold : ℚ := 5 / 1000

/-- Render a natural number below 100 with two digits, as
`Number.toFixed(2)` does for the fractional part. -/
def pad2 (n : ℕ) : String :=
  if n < 10 then "0" ++ toString n else toString n

/-- Model of JavaScript `Number.toFixed(2)` on an exact rational value:
the sign is taken from the argument, the magnitude is rounded to the
nearest hundredth with ties going up in magnitude, and the result is
rendered with exactly two digits after the decimal point. -/
def toFixed2 (q : ℚ) : String :=
  let m : ℕ := (Int.floor (|q| * 100 + 1 / 2)).toNat
  (if q < 0 then "-" else "") ++ toString (m / 100) ++ "." ++ pad2 (m % 100)

/-- `interface PriceDifferenceData` from the source.  The timestamp is
whatever `new Date().toISOString()` returned; the clock value is passed
in as the `now` argument of every function that builds a record. -/
structure PriceDifferenceData where
  binancePrice : ℚ
  serumPrice : ℚ
  priceDifference : ℚ
  percentDifference : String
  pair : String
  timestamp : String
deriving DecidableEq, Repr

/-- `calculatePriceDifference` with the two fee fields of the class made
explicit arguments (in the source they are the instance constants
`binanceFeeRate` and `solanaFeeRate`, fixed at construction). -/
def calculatePriceDifferenceWithFees (feeBinance feeSolana : ℚ)
    (pair : String) (binancePrice serumPrice : ℚ) (now : String) :
    PriceDifferenceData :=
  let binancePriceAfterFees := binancePrice * (1 - feeBinance)
  let serumPriceAfterFees := serumPrice * (1 - feeSolana)
  let priceDifference := binancePriceAfterFees - serumPriceAfterFees
  let percentDifference := priceDifference / serumPriceAfterFees * 100
  { binancePrice := binancePrice
  , serumPrice := serumPrice
  , priceDifference := priceDifference
  , percentDifference := toFixed2 percentDifference
  , pair := pair
  , timestamp := now }

/-- `private calculatePriceDifference(pair, binancePrice, serumPrice)`:
the instance method, with the class's fee constants plugged in. -/
def calculatePriceDifference (pair : String)
    (binancePrice serumPrice : ℚ) (now : String) : PriceDifferenceData :=
  calculatePriceDifferenceWithFees binanceFeeRate solanaFeeRate
    pair binancePrice serumPrice now

/-- A connected client socket: its identity and whether
`readyState === WebSocket.OPEN`. -/
structure Client where
  id : ℕ
  readyStateOpen : Bool
deriving DecidableEq, Repr

/-- The mutable fields of `PriceMonitorServer` the handlers touch. -/
structure ServerState where
  lastBinancePrices : PriceMap
  lastSerumPrices : PriceMap
  clients : List Client

/-- A message pushed to a client over its socket: `sendAllPairData` and
`broadcastPrices` send a `{type:"all", data:[...]}` batch, while
`sendSinglePairData` sends one bare record. -/
inductive OutMsg where
  | batch : List PriceDifferenceData → OutMsg
  | single : PriceDifferenceData → OutMsg
deriving DecidableEq, Repr

/-- A list of performed `ws.send` calls: receiving client id and payload. -/
abbrev Sends := List (ℕ × OutMsg)

/-- The body shared by `sendSinglePairData` and `getAllPairData`: read
both sides of the store for a pair name, and under the truthiness guard
`if (binancePrice && serumPrice)` build the spread record.  `NaN` and
`0` fail the guard exactly as in JavaScript. -/
def singlePairRecord (s : ServerState) (pairName : String) (now : String) :
    Option PriceDifferenceData :=
  match s.lastBinancePrices.get pairName, s.lastSerumPrices.get pairName with
  | some (.val b), some (.val v) =>
      if b ≠ 0 ∧ v ≠ 0 then
        some (calculatePriceDifference pairName b v now)
      else none
  | _, _ => none

/-- `private getAllPairData()`: map over `TRADING_PAIRS`, keep the pairs
whose guard passed (`.filter(data !== null)`). -/
def getAllPairData (s : ServerState) (now : String) :
    List PriceDifferenceData :=
  (TRADING_PAIRS.map (fun cfg => singlePairRecord s cfg.name now)).filterMap id

/-- `private sendSinglePairData(ws, pair)`: send one bare record if the
guard passes, nothing otherwise. -/
def sendSinglePairData (s : ServerState) (c : Client) (pairName : String)
    (now : String) : Sends :=
  match singlePairRecord s pairName now with
  | some d => [(c.id, OutMsg.single d)]
  | none => []

/-- `private sendAllPairData(ws)`: always sends the batch, even when the
data list is empty. -/
def sendAllPairData (s : ServerState) (c : Client) (now : String) : Sends :=
  [(c.id, OutMsg.batch (getAllPairData s now))]

/-- JavaScript `str.split(sep)` restricted to a one-character separator,
as used with `"."` and `"@"` in the source. -/
def jsSplit (sep : Char) (s : String) : List String :=
  (s.toList.splitOn sep).map List.asString

/-- JavaScript `str.toLowerCase()` (on the ASCII symbols involved). -/
def jsToLower (s : String) : String :=
  (s.toList.map Char.toLower).asString

/-- `private broadcastPrices()`: when at least one record is available,
send the same batch to every registered client whose socket is open.  No
per-client subscription state exists in the class, so no filtering
happens here. -/
def broadcastPrices (s : ServerState) (now : String) : Sends :=
  let allData := getAllPairData s now
  if allData.length > 0 then
    (s.clients.filter (fun c => c.readyStateOpen)).map
      (fun c => (c.id, OutMsg.batch allData))
  else []

/-- `private handleSubscription(ws, params)`: wildcard topic wins and
yields one batch; otherwise each `difference.<pair>` topic yields an
independent single-pair snapshot attempt.  `const [type, pair] =
param.split(".")` binds the first two components; when the second is
absent, `pair` is `undefined` and the store lookup inside
`sendSinglePairData` finds nothing, so no message results. -/
def handleSubscription (s : ServerState) (c : Client)
    (params : List String) (now : String) : Sends :=
  if params.contains "difference.all" then
    sendAllPairData s c now
  else
    params.flatMap (fun param =>
      let parts := jsSplit '.' param
      match parts.get? 1 with
      | some pr =>
          if parts.getD 0 "" = "difference" then
            sendSinglePairData s c pr now
          else []
      | none => [])

/-- An inbound frame on a client socket, as seen after `JSON.parse`:
`malformed` when the parse throws, otherwise the `method` and `params`
fields that may each be absent. -/
inductive ClientRaw where
  | malformed : ClientRaw
  | parsed : Option String → Option (List String) → ClientRaw

/-- The `ws.on("message", ...)` handler of `setupWebSocketServer`.  The
whole body sits in a `try`: a `JSON.parse` failure, and equally the
`TypeError` from `params.includes` when `params` is absent, are caught
and logged.  The handler never mutates the client registry or the price
maps and sends nothing outside `handleSubscription`. -/
def onClientMessage (s : ServerState) (c : Client) (raw : ClientRaw)
    (now : String) : ServerState × Sends :=
  match raw with
  | .malformed => (s, [])
  | .parsed method params =>
      if method = some "SUBSCRIBE" then
        match params with
        | some ps => (s, handleSubscription s c ps now)
        | none => (s, [])
      else (s, [])

/-- `ws.on("close", ...)` on a client socket: `this.clients.delete(ws)`. -/
def onClientClose (s : ServerState) (c : Client) : ServerState :=
  { s with clients := s.clients.filter (fun x => x ≠ c) }

/-- The `wss.on("connection", ...)` handler: `this.clients.add(ws)`. -/
def onClientConnect (s : ServerState) (c : Client) : ServerState :=
  { s with clients := s.clients ++ [c] }

/-- The `data` object of a Binance stream message after `JSON.parse`,
with `parseFloat(ticker.c)` already applied to the price string `c`
(`parseFloat` is a JavaScript builtin; on a non-numeric string it
returns `NaN`, i.e. `JSNumber.nan`). -/
structure BinanceTickerData where
  c : JSNumber
  s : String
deriving DecidableEq, Repr

/-- A Binance stream frame after a successful `JSON.parse`: the `stream`
key and the optional `data` payload tested by `if (message.data)`. -/
structure BinanceMsg where
  stream : String
  data : Option BinanceTickerData

/-- The raw bytes of a Binance frame as `JSON.parse` sees them:
`malformed` when the parse throws a `SyntaxError`. -/
inductive BinanceRaw where
  | malformed : BinanceRaw
  | parsed : BinanceMsg → BinanceRaw

/-- The symbol-resolution predicate of the Binance message handler:
`p.binanceSymbol.toLowerCase() === message.stream.split('@')[0]`. -/
def binanceSymbolMatches (stream : String) (p : PairConfig) : Bool :=
  jsToLower p.binanceSymbol = (jsSplit '@' stream).getD 0 ""

/-- The `this.binanceWs.on('message', ...)` handler of
`startBinanceWebSockets`.  Its body is NOT wrapped in a `try`/`catch`,
so a `JSON.parse` failure escapes the handler; this is modelled by the
`Except.error` result.  On a frame with a `data` payload whose stream
resolves against `TRADING_PAIRS`, the parsed price is stored with no
validation whatsoever and a broadcast cycle runs on the new state. -/
def onBinanceMessage (s : ServerState) (raw : BinanceRaw) (now : String) :
    Except String (ServerState × Sends) :=
  match raw with
  | .malformed => .error "SyntaxError: JSON.parse"
  | .parsed m =>
      match m.data with
      | none => .ok (s, [])
      | some ticker =>
          match TRADING_PAIRS.find? (binanceSymbolMatches m.stream) with
          | some pair =>
              let s' := { s with lastBinancePrices :=
                            s.lastBinancePrices.set pair.name ticker.c }
              .ok (s', broadcastPrices s' now)
          | none => .ok (s, [])

/-- The outcome of one pair's order-book fetch inside
`updateAllSerumPrices`: the awaited `loadBids`/`loadAsks` pair either
rejects (`fetchError`, handled by the per-pair `catch`) or yields the
two optional top-of-book prices `bids.getL2(1)[0]?.[0]` and
`asks.getL2(1)[0]?.[0]`. -/
inductive FetchResult where
  | fetchError : FetchResult
  | book : Option ℚ → Option ℚ → FetchResult

/-- One iteration of the `for (const [pairName, market] of
this.markets.entries())` loop: on a fetch error the `catch` only logs;
otherwise the guard `if (bestBid && bestAsk)` stores the mid price, and
a missing or zero side leaves the store untouched for this pair. -/
def updateSerumPair (store : PriceMap) (pairName : String)
    (r : FetchResult) : PriceMap :=
  match r with
  | .fetchError => store
  | .book bb ba =>
      match bb, ba with
      | some b, some a =>
          if b ≠ 0 ∧ a ≠ 0 then store.set pairName (.val ((b + a) / 2))
          else store
      | _, _ => store

/-- `private async updateAllSerumPrices()`: iterate over the loaded
markets (given here as the list of their pair names, with each pair's
fetch outcome supplied by `fetches`), then run one broadcast cycle on
the resulting state regardless of individual successes. -/
def updateAllSerumPrices (s : ServerState) (marketPairs : List String)
    (fetches : String → FetchResult) (now : String) :
    ServerState × Sends :=
  let store := marketPairs.foldl
    (fun st p => updateSerumPair st p (fetches p)) s.lastSerumPrices
  let s' := { s with lastSerumPrices := store }
  (s', broadcastPrices s' now)

/-- A fetch outcome that makes `updateAllSerumPrices` skip the pair per
the claim: the fetch rejected, or at least one side of the book is
absent. -/
def fetchSkipped : FetchResult → Prop
  | .fetchError => True
  | .book bb ba => bb = none ∨ ba = none

/-- Bookkeeping for the Binance connection lifecycle: the delays (in
milliseconds) of the reconnect callbacks currently scheduled through
`setTimeout`, and how many times `new WebSocket(wsUrl)` has run. -/
structure BinanceConnState where
  pendingReconnects : List ℕ
  connectionsCreated : ℕ
deriving DecidableEq, Repr

/-- Discrete events touching the Binance connection between two points
in time: the socket's `close` event, the firing of a previously
scheduled reconnect timer, and any ordinary inbound ticker frame. -/
inductive BinanceLifecycleEvent where
  | closeEvent : BinanceLifecycleEvent
  | reconnectTimerFire : BinanceLifecycleEvent
  | tickerFrame : BinanceLifecycleEvent
deriving DecidableEq, Repr

/-- Effect of each lifecycle event on the connection bookkeeping.  The
`close` handler body is exactly `setTimeout(() =>
this.startBinanceWebSockets(), 5000)`: it schedules one callback with a
5000 ms delay and constructs nothing itself.  Only a firing timer runs
`startBinanceWebSockets`, which performs the single `new
WebSocket(wsUrl)` construction.  The message handler constructs no
connection. -/
def lifecycleStep (st : BinanceConnState) :
    BinanceLifecycleEvent → BinanceConnState
  | .closeEvent =>
      { st with pendingReconnects := st.pendingReconnects ++ [5000] }
  | .reconnectTimerFire =>
      { pendingReconnects := st.pendingReconnects.tail
      , connectionsCreated := st.connectionsCreated + 1 }
  | .tickerFrame => st

/-- Run a sequence of lifecycle events. -/
def lifecycleRun (st : BinanceConnState)
    (evs : List BinanceLifecycleEvent) : BinanceConnState :=
  evs.foldl lifecycleStep st

/-- A server with empty price maps and no clients, as right after the
constructor ran. -/
def emptyServer : ServerState :=
  { lastBinancePrices := PriceMap.empty
  , lastSerumPrices := PriceMap.empty
  , clients := [] }

/-- A server holding a Binance and a Serum price for BTC/USDC and no
clients yet. -/
def pricedServer : ServerState :=
  { lastBinancePrices := PriceMap.empty.set "BTC/USDC" (.val 50000)
  , lastSerumPrices := PriceMap.empty.set "BTC/USDC" (.val 49900)
  , clients := [] }

/-- A connected, open client socket. -/
def demoClient : Client := { id := 0, readyStateOpen := true }

/-- A Binance frame whose price string did not parse as a number:
`parseFloat` returned `NaN` for the `c` field. -/
def nanTickerMsg : BinanceMsg :=
  { stream := "btcusdc@ticker", data := some { c := .nan, s := "BTCUSDC" } }

/-- A server where only the Binance side of BTC/USDC is populated, only
the Serum side of ETH/USDC is populated, and SOL/USDC has both. -/
def mixedServer : ServerState :=
  { lastBinancePrices :=
      (PriceMap.empty.set "BTC/USDC" (.val 50000)).set "SOL/USDC" (.val 150)
  , lastSerumPrices :=
      (PriceMap.empty.set "ETH/USDC" (.val 3000)).set "SOL/USDC" (.val 149)
  , clients := [demoClient] }

/-- A server where the stored Binance price of BTC/USDC is exactly `0`
and the Serum side is an ordinary price. -/
def zeroPricedServer : ServerState :=
  { lastBinancePrices := PriceMap.empty.set "BTC/USDC" (.val 0)
  , lastSerumPrices := PriceMap.empty.set "BTC/USDC" (.val 49900)
  , clients := [demoClient] }

theorem PriceMap.get_set_self (m : PriceMap) (k : String) (v : JSNumber) :
    (m.set k v).get k = some v := by
  simp [PriceMap.get, PriceMap.set]

theorem PriceMap.get_set_ne (m : PriceMap) (k q : String) (v : JSNumber)
    (h : q ≠ k) : (m.set k v).get q = m.get q := by
  simp [PriceMap.get, PriceMap.set, h]

theorem mem_getAllPairData_iff (s : ServerState) (now : String)
    (d : PriceDifferenceData) :
    d ∈ getAllPairData s now
      ↔ ∃ cfg ∈ TRADING_PAIRS, singlePairRecord s cfg.name now = some d := by
  simp [getAllPairData, List.mem_filterMap, List.mem_map]

theorem singlePairRecord_some_shape (s : ServerState) (p now : String)
    (d : PriceDifferenceData) (h : singlePairRecord s p now = some d) :
    d.pair = p
    ∧ ∃ b v : ℚ, s.lastBinancePrices.get p = some (.val b)
        ∧ s.lastSerumPrices.get p = some (.val v) ∧ b ≠ 0 ∧ v ≠ 0
        ∧ d = calculatePriceDifference p b v now := by
  unfold singlePairRecord at h
  split at h
  · rename_i b v hb hv
    split at h
    · rename_i hbv
      injection h with hd
      exact ⟨by rw [← hd]; rfl, b, v, hb, hv, hbv.1, hbv.2, hd.symm⟩
    · exact absurd h (by simp)
  · exact absurd h (by simp)

/-- C2: for all positive finite prices and fee rates in [0,1), the
spread computation returns `priceDifference` equal to
`exchangePrice*(1-feeEx) - onChainPrice*(1-feeOn)`, and
`percentDifference` equal to that difference divided by
`onChainPrice*(1-feeOn)` times 100, formatted to 2 decimal places; the
instance method applies this with the class's fee constants 0.001 and
0.003. -/
theorem c2_spread_formula (feeEx feeOn exchangePrice onChainPrice : ℚ)
    (pair now : String)
    (hex : 0 < exchangePrice) (hon : 0 < onChainPrice)
    (hfe0 : 0 ≤ feeEx) (hfe1 : feeEx < 1)
    (hfo0 : 0 ≤ feeOn) (hfo1 : feeOn < 1) :
    (calculatePriceDifferenceWithFees feeEx feeOn pair
        exchangePrice onChainPrice now).priceDifference
      = exchangePrice * (1 - feeEx) - onChainPrice * (1 - feeOn)
    ∧ (calculatePriceDifferenceWithFees feeEx feeOn pair
        exchangePrice onChainPrice now).percentDifference
      = toFixed2 ((exchangePrice * (1 - feeEx) - onChainPrice * (1 - feeOn))
          / (onChainPrice * (1 - feeOn)) * 100)
    ∧ calculatePriceDifference pair exchangePrice onChainPrice now
      = calculatePriceDifferenceWithFees binanceFeeRate solanaFeeRate pair
          exchangePrice onChainPrice now :=
  ⟨rfl, rfl, rfl⟩

/-- Witness for C2 at the spec's example input. -/
theorem c2_spread_formula_witness :
    (calculatePriceDifferenceWithFees (1/1000) (3/1000) "BTC/USDC"
        50000 49900 "t").priceDifference
      = 50000 * (1 - 1/1000) - 49900 * (1 - 3/1000) :=
  (c2_spread_formula (1/1000) (3/1000) 50000 49900 "BTC/USDC" "t"
    (by norm_num) (by norm_num) (by norm_num) (by norm_num)
    (by norm_num) (by norm_num)).1

/-- C7: a client message that is not valid JSON is caught by the
handler's `try`/`catch`: the server state (and with it the client
registry) is unchanged and nothing is sent back. -/
theorem c7_malformed_client_message_ignored (s : ServerState) (c : Client)
    (now : String) :
    onClientMessage s c .malformed now = (s, []) := rfl

/-- C8: at exchangePrice 50000, onChainPrice 49900 and the class's fee
constants 0.001 and 0.003, the effective prices are 49950 and 49750.3,
the price difference is 199.7, and the percent difference formats to
"0.40". -/
theorem c8_example_values :
    (50000 : ℚ) * (1 - binanceFeeRate) = 49950
    ∧ (49900 : ℚ) * (1 - solanaFeeRate) = 497503/10
    ∧ (calculatePriceDifference "BTC/USDC" 50000 49900
        "2024-01-01T00:00:00.000Z").priceDifference = 1997/10
    ∧ (calculatePriceDifference "BTC/USDC" 50000 49900
        "2024-01-01T00:00:00.000Z").percentDifference = "0.40" := by
  refine ⟨by norm_num [binanceFeeRate], by norm_num [solanaFeeRate], ?_, ?_⟩
  · simp only [calculatePriceDifference, calculatePriceDifferenceWithFees]
    norm_num [binanceFeeRate, solanaFeeRate]
  · simp only [calculatePriceDifference, calculatePriceDifferenceWithFees]
    rw [show (50000 * (1 - binanceFeeRate) - 49900 * (1 - solanaFeeRate))
          / (49900 * (1 - solanaFeeRate)) * 100 = (199700/497503 : ℚ) from by
        norm_num [binanceFeeRate, solanaFeeRate]]
    simp only [toFixed2]
    rw [show |(199700/497503 : ℚ)| * 100 + 1/2 = 40437503/995006 from by
      rw [abs_of_nonneg (by norm_num)]; norm_num]
    rw [show (⌊(40437503/995006 : ℚ)⌋ : ℤ) = 40 from by norm_num]
    rw [if_neg (by norm_num : ¬((199700/497503 : ℚ) < 0))]
    rfl

/-- C3: a pair with only one side of the store populated never appears
in the broadcast-cycle output, and every record produced has both prices
present for its pair. -/
theorem c3_one_sided_pair_omitted (s : ServerState) (now p : String)
    (h : s.lastBinancePrices.get p = none ∨ s.lastSerumPrices.get p = none) :
    (∀ d ∈ getAllPairData s now, d.pair ≠ p)
    ∧ ∀ d ∈ getAllPairData s now,
        ∃ b v : ℚ, s.lastBinancePrices.get d.pair = some (.val b)
          ∧ s.lastSerumPrices.get d.pair = some (.val v) := by
  constructor
  · intro d hd hdp
    obtain ⟨cfg, hmem, hrec⟩ := (mem_getAllPairData_iff s now d).1 hd
    obtain ⟨hpair, b, v, hb, hv, -, -, -⟩ :=
      singlePairRecord_some_shape s cfg.name now d hrec
    have hcp : cfg.name = p := hpair.symm.trans hdp
    rw [hcp] at hb hv
    rcases h with h | h
    · rw [h] at hb; cases hb
    · rw [h] at hv; cases hv
  · intro d hd
    obtain ⟨cfg, hmem, hrec⟩ := (mem_getAllPairData_iff s now d).1 hd
    obtain ⟨hpair, b, v, hb, hv, -, -, -⟩ :=
      singlePairRecord_some_shape s cfg.name now d hrec
    exact ⟨b, v, by rw [hpair]; exact hb, by rw [hpair]; exact hv⟩

/-- Witness for C3: in `mixedServer`, BTC/USDC has no Serum price, so
the one produced record (for SOL/USDC) is not a BTC/USDC record. -/
theorem c3_one_sided_pair_omitted_witness :
    (calculatePriceDifference "SOL/USDC" 150 149 "t").pair ≠ "BTC/USDC" := by
  have hnone : mixedServer.lastSerumPrices.get "BTC/USDC" = none := by
    simp [mixedServer, PriceMap.get, PriceMap.set, PriceMap.empty]
  have hall : getAllPairData mixedServer "t"
      = [calculatePriceDifference "SOL/USDC" 150 149 "t"] := by
    simp [getAllPairData, TRADING_PAIRS, singlePairRecord, mixedServer,
      PriceMap.get, PriceMap.set, PriceMap.empty]
  exact (c3_one_sided_pair_omitted mixedServer "t" "BTC/USDC"
    (Or.inr hnone)).1 (calculatePriceDifference "SOL/USDC" 150 149 "t")
    (by rw [hall]; exact List.mem_singleton.mpr rfl)

/-- C10: a stored price equal to exactly 0 fails the numeric truthiness
guard, so its pair is omitted from broadcast-cycle output and the
single-pair snapshot path sends no reply. -/
theorem c10_zero_price_treated_absent (s : ServerState) (c : Client)
    (now p : String)
    (h : s.lastBinancePrices.get p = some (.val 0)
       ∨ s.lastSerumPrices.get p = some (.val 0)) :
    (∀ d ∈ getAllPairData s now, d.pair ≠ p)
    ∧ sendSinglePairData s c p now = [] := by
  have hnone : singlePairRecord s p now = none := by
    unfold singlePairRecord
    rcases h with h | h
    · rw [h]
      cases hv : s.lastSerumPrices.get p with
      | none => rfl
      | some n => cases n with
        | nan => rfl
        | val q => simp
    · cases hb : s.lastBinancePrices.get p with
      | none => rfl
      | some n => cases n with
        | nan => rfl
        | val q => rw [h]; simp
  constructor
  · intro d hd hdp
    obtain ⟨cfg, hmem, hrec⟩ := (mem_getAllPairData_iff s now d).1 hd
    obtain ⟨hpair, -⟩ := singlePairRecord_some_shape s cfg.name now d hrec
    rw [hpair.symm.trans hdp, hnone] at hrec
    cases hrec
  · unfold sendSinglePairData
    rw [hnone]

/-- Witness for C10: with the BTC/USDC Binance price stored as exactly
0, the single-pair snapshot for BTC/USDC sends nothing. -/
theorem c10_zero_price_treated_absent_witness :
    sendSinglePairData zeroPricedServer demoClient "BTC/USDC" "t" = [] :=
  (c10_zero_price_treated_absent zeroPricedServer demoClient "t" "BTC/USDC"
    (Or.inl (by simp [zeroPricedServer, PriceMap.get, PriceMap.set,
      PriceMap.empty]))).2

/-- Counterexample to C1: `clients` is a bare `Set<WebSocket>` with no
per-client filter state, and `broadcastPrices` sends to every open
client.  A client that connects (registered by the `connection` handler
with no subscription whatsoever) receives the full batch on the next
broadcast cycle, refuting "a client whose filter set is empty receives
nothing". -/
theorem c1_counterexample_unsubscribed_client_receives_broadcast :
    broadcastPrices (onClientConnect pricedServer demoClient) "t"
      = [(0, OutMsg.batch [calculatePriceDifference "BTC/USDC" 50000 49900 "t"])] := by
  have hall : getAllPairData (onClientConnect pricedServer demoClient) "t"
      = [calculatePriceDifference "BTC/USDC" 50000 49900 "t"] := by
    simp [getAllPairData, TRADING_PAIRS, singlePairRecord, onClientConnect,
      pricedServer, PriceMap.get, PriceMap.set, PriceMap.empty]
  simp only [broadcastPrices, hall]
  rfl

/-- C1 as amended: broadcast cycles do no per-client filtering — every
registered client with an open socket receives the full batch whenever
at least one record is available, independent of any subscription, and
nothing is sent when no record is available.  Subscription requests
instead get an immediate one-off reply: a `params` list containing the
wildcard topic yields the full batch as one message at subscribe time,
and in a wildcard-free `params` list each individual `difference.<pair>`
topic whose pair has both prices present yields a separate unbatched
single-record message. -/
theorem c1_amended_broadcast_is_unfiltered (s : ServerState) (now : String)
    (c : Client) (params : List String) :
    (getAllPairData s now ≠ [] →
       broadcastPrices s now
         = (s.clients.filter (fun x => x.readyStateOpen)).map
             (fun x => (x.id, OutMsg.batch (getAllPairData s now))))
    ∧ (getAllPairData s now = [] → broadcastPrices s now = [])
    ∧ (params.contains "difference.all" = true →
         handleSubscription s c params now
           = [(c.id, OutMsg.batch (getAllPairData s now))])
    ∧ ∀ (p : String) (b v : ℚ),
        params.contains "difference.all" = false →
        ("difference." ++ p) ∈ params →
        jsSplit '.' ("difference." ++ p) = ["difference", p] →
        s.lastBinancePrices.get p = some (.val b) →
        s.lastSerumPrices.get p = some (.val v) →
        b ≠ 0 → v ≠ 0 →
        (c.id, OutMsg.single (calculatePriceDifference p b v now))
          ∈ handleSubscription s c params now := by
  refine ⟨fun h => ?_, fun h => ?_, fun h => ?_, ?_⟩
  · rw [broadcastPrices, if_pos]
    exact List.length_pos.mpr h
  · rw [broadcastPrices, if_neg]
    rw [h]
    simp
  · rw [handleSubscription, if_pos h]
    rfl
  · intro p b v hw hmem hsplit hb hv hb0 hv0
    have hrec : singlePairRecord s p now
        = some (calculatePriceDifference p b v now) := by
      unfold singlePairRecord
      rw [hb, hv]
      show (if b ≠ 0 ∧ v ≠ 0 then some (calculatePriceDifference p b v now)
          else none) = some (calculatePriceDifference p b v now)
      exact if_pos ⟨hb0, hv0⟩
    rw [handleSubscription,
      if_neg (show ¬(params.contains "difference.all" = true) from by
        rw [hw]; exact Bool.false_ne_true)]
    refine List.mem_flatMap.mpr ⟨"difference." ++ p, hmem, ?_⟩
    show (c.id, OutMsg.single (calculatePriceDifference p b v now))
      ∈ (match (jsSplit '.' ("difference." ++ p)).get? 1 with
         | some pr =>
             if (jsSplit '.' ("difference." ++ p)).getD 0 "" = "difference"
             then sendSinglePairData s c pr now else []
         | none => [])
    rw [hsplit]
    show (c.id, OutMsg.single (calculatePriceDifference p b v now))
      ∈ (if ("difference" : String) = "difference"
         then sendSinglePairData s c p now else [])
    rw [if_pos rfl, sendSinglePairData, hrec]
    exact List.mem_singleton.mpr rfl

/-- Witness for C1 as amended: on `mixedServer`, a wildcard subscription
gets the one available record back as a single batched message, and a
subscription to the individual SOL/USDC topic gets that pair's record as
a separate unbatched message. -/
theorem c1_amended_broadcast_is_unfiltered_witness :
    handleSubscription mixedServer demoClient ["difference.all"] "t"
      = [(0, OutMsg.batch (getAllPairData mixedServer "t"))]
    ∧ (0, OutMsg.single (calculatePriceDifference "SOL/USDC" 150 149 "t"))
      ∈ handleSubscription mixedServer demoClient ["difference.SOL/USDC"] "t" :=
  ⟨(c1_amended_broadcast_is_unfiltered mixedServer "t" demoClient
      ["difference.all"]).2.2.1 (by rfl),
   (c1_amended_broadcast_is_unfiltered mixedServer "t" demoClient
      ["difference.SOL/USDC"]).2.2.2 "SOL/USDC" 150 149 (by rfl)
      (List.mem_singleton.mpr rfl) (by decide)
      (by simp [mixedServer, PriceMap.get, PriceMap.set, PriceMap.empty])
      (by simp [mixedServer, PriceMap.get, PriceMap.set, PriceMap.empty])
      (by norm_num) (by norm_num)⟩

/-- Counterexample to C4: the Binance `message` handler's body is not
wrapped in `try`/`catch`, so `JSON.parse` on a malformed payload throws
out of the handler instead of being ignored. -/
theorem c4_counterexample_malformed_binance_frame_throws :
    onBinanceMessage emptyServer .malformed "t"
      = Except.error "SyntaxError: JSON.parse" := rfl

/-- C4 as amended: a valid-JSON frame that carries no `data` payload
(a non-ticker message) is ignored — state unchanged, nothing sent, no
exception — but a malformed payload makes the handler throw, since the
parse is not guarded by any `try`/`catch`. -/
theorem c4_amended_nonticker_ignored_malformed_throws (s : ServerState)
    (m : BinanceMsg) (now : String) (h : m.data = none) :
    onBinanceMessage s (.parsed m) now = .ok (s, [])
    ∧ onBinanceMessage s .malformed now
        = Except.error "SyntaxError: JSON.parse" := by
  refine ⟨?_, rfl⟩
  rw [onBinanceMessage, h]

/-- Witness for C4 as amended at a concrete frame with no `data`. -/
theorem c4_amended_nonticker_ignored_malformed_throws_witness :
    onBinanceMessage emptyServer
        (.parsed { stream := "btcusdc@ticker", data := none }) "t"
      = .ok (emptyServer, []) :=
  (c4_amended_nonticker_ignored_malformed_throws emptyServer
    { stream := "btcusdc@ticker", data := none } "t" rfl).1

/-- Counterexample to C5: the setters perform no validation at all.
`parseFloat` of a non-numeric ticker price string yields `NaN`, and the
handler stores it: afterwards the store holds `NaN` for BTC/USDC, so the
store is not unchanged and the invalid value was not rejected. -/
theorem c5_counterexample_nan_stored :
    (onBinanceMessage emptyServer (.parsed nanTickerMsg) "t").toOption.map
        (fun r => r.1.lastBinancePrices.get "BTC/USDC")
      = some (some JSNumber.nan) := by
  have hfind : TRADING_PAIRS.find? (binanceSymbolMatches nanTickerMsg.stream)
      = some { serumMarketAddress := "CVfYa8RGXnuDBeGmniCcdkBwoLqVxh92xB1JqgRQx3F"
             , binanceSymbol := "BTCUSDC", name := "BTC/USDC"
             , programId := "EUqojwWA2rd19FZrzeBncJsm38Jm1hEhE3zsmX3bRc2o" } := by
    decide
  have h1 : onBinanceMessage emptyServer (.parsed nanTickerMsg) "t"
      = .ok ({ emptyServer with lastBinancePrices :=
                 emptyServer.lastBinancePrices.set "BTC/USDC" JSNumber.nan }
            , broadcastPrices ({ emptyServer with lastBinancePrices :=
                 emptyServer.lastBinancePrices.set "BTC/USDC" JSNumber.nan }) "t") := by
    rw [onBinanceMessage,
      show nanTickerMsg.data = some { c := .nan, s := "BTCUSDC" } from rfl,
      hfind]
  rw [h1]
  simp [Except.toOption, PriceMap.get, PriceMap.set]

/-- C5 as amended: whatever number `parseFloat` produced for a resolved
ticker frame — `NaN` included — is stored as-is on the exchange side,
and on the on-chain side any mid price passing the truthiness guard —
negative values included — is stored as-is; no positive-finite
validation exists on either path. -/
theorem c5_amended_prices_stored_unvalidated (s : ServerState)
    (m : BinanceMsg) (tk : BinanceTickerData) (cfg : PairConfig)
    (now : String) (hdata : m.data = some tk)
    (hfind : TRADING_PAIRS.find? (binanceSymbolMatches m.stream) = some cfg) :
    (∃ sends, onBinanceMessage s (.parsed m) now
        = .ok ({ s with lastBinancePrices :=
                   s.lastBinancePrices.set cfg.name tk.c }, sends)
          ∧ (s.lastBinancePrices.set cfg.name tk.c).get cfg.name = some tk.c)
    ∧ ∀ (store : PriceMap) (p : String) (b a : ℚ), b ≠ 0 → a ≠ 0 →
        (updateSerumPair store p (.book (some b) (some a))).get p
          = some (.val ((b + a) / 2)) := by
  constructor
  · exact ⟨_, by rw [onBinanceMessage, hdata, hfind],
      PriceMap.get_set_self _ _ _⟩
  · intro store p b a hb ha
    rw [updateSerumPair, if_pos ⟨hb, ha⟩]
    exact PriceMap.get_set_self _ _ _

theorem updateSerumPair_skip (store : PriceMap) (p : String)
    (r : FetchResult) (h : fetchSkipped r) : updateSerumPair store p r = store := by
  cases r with
  | fetchError => rfl
  | book bb ba =>
    rcases h with h | h
    · subst h; rfl
    · subst h
      cases bb <;> rfl

theorem updateSerumPair_get_ne (store : PriceMap) (k q : String)
    (r : FetchResult) (h : q ≠ k) :
    (updateSerumPair store k r).get q = store.get q := by
  unfold updateSerumPair
  split
  · rfl
  · split
    · split
      · exact PriceMap.get_set_ne _ _ _ _ h
      · rfl
    · rfl

theorem updateSerumPair_get_congr (st1 st2 : PriceMap) (k : String)
    (r : FetchResult) (h : st1.get k = st2.get k) :
    (updateSerumPair st1 k r).get k = (updateSerumPair st2 k r).get k := by
  unfold updateSerumPair
  split
  · exact h
  · split
    · split
      · rw [PriceMap.get_set_self, PriceMap.get_set_self]
      · exact h
    · exact h

theorem serumFold_get_skip (pairs : List String)
    (fetches : String → FetchResult) (st : PriceMap) (p : String)
    (h : fetchSkipped (fetches p)) :
    (pairs.foldl (fun acc q => updateSerumPair acc q (fetches q)) st).get p
      = st.get p := by
  induction pairs generalizing st with
  | nil => rfl
  | cons r rest ih =>
    rw [List.foldl_cons, ih]
    by_cases hrp : r = p
    · subst hrp
      rw [updateSerumPair_skip _ _ _ h]
    · exact updateSerumPair_get_ne _ _ _ _ (fun hq => hrp hq.symm)

theorem serumFold_get_agree (pairs : List String)
    (f g : String → FetchResult) (st1 st2 : PriceMap) (p : String)
    (hfg : ∀ q, q ≠ p → f q = g q)
    (hst : ∀ q, q ≠ p → st1.get q = st2.get q) :
    ∀ q, q ≠ p →
      (pairs.foldl (fun acc r => updateSerumPair acc r (f r)) st1).get q
        = (pairs.foldl (fun acc r => updateSerumPair acc r (g r)) st2).get q := by
  induction pairs generalizing st1 st2 with
  | nil => exact hst
  | cons r rest ih =>
    intro q hq
    rw [List.foldl_cons, List.foldl_cons]
    refine ih (updateSerumPair st1 r (f r)) (updateSerumPair st2 r (g r))
      ?_ q hq
    intro x hx
    by_cases hxr : x = r
    · subst hxr
      rw [hfg x hx]
      exact updateSerumPair_get_congr st1 st2 x (g x) (hst x hx)
    · rw [updateSerumPair_get_ne _ _ _ _ hxr,
        updateSerumPair_get_ne _ _ _ _ hxr]
      exact hst x hx

/-- C6: when a pair's top-of-book fetch errors or either side of the
book is absent, that pair's previously stored on-chain price is
unchanged after the poll cycle, and what the cycle stores for every
other pair does not depend on this pair's fetch outcome. -/
theorem c6_failed_fetch_skips_pair_only (s : ServerState)
    (marketPairs : List String) (fetches : String → FetchResult)
    (p now : String) (h : fetchSkipped (fetches p)) :
    ((updateAllSerumPrices s marketPairs fetches now).1.lastSerumPrices.get p
        = s.lastSerumPrices.get p)
    ∧ ∀ (g : String → FetchResult), (∀ q, q ≠ p → g q = fetches q) →
        ∀ q, q ≠ p →
          (updateAllSerumPrices s marketPairs g now).1.lastSerumPrices.get q
            = (updateAllSerumPrices s marketPairs fetches now).1.lastSerumPrices.get q := by
  constructor
  · exact serumFold_get_skip marketPairs fetches s.lastSerumPrices p h
  · intro g hg
    exact serumFold_get_agree marketPairs g fetches
      s.lastSerumPrices s.lastSerumPrices p hg (fun _ _ => rfl)

/-- Witness for C6: a cycle whose only pair's fetch errors leaves that
pair's stored price unchanged. -/
theorem c6_failed_fetch_skips_pair_only_witness :
    (updateAllSerumPrices pricedServer ["BTC/USDC"]
        (fun _ => .fetchError) "t").1.lastSerumPrices.get "BTC/USDC"
      = pricedServer.lastSerumPrices.get "BTC/USDC" :=
  (c6_failed_fetch_skips_pair_only pricedServer ["BTC/USDC"]
    (fun _ => .fetchError) "BTC/USDC" "t" trivial).1

theorem lifecycleRun_conns_const (st : BinanceConnState)
    (evs : List BinanceLifecycleEvent)
    (h : BinanceLifecycleEvent.reconnectTimerFire ∉ evs) :
    (lifecycleRun st evs).connectionsCreated = st.connectionsCreated := by
  induction evs generalizing st with
  | nil => rfl
  | cons e rest ih =>
    have he : e ≠ BinanceLifecycleEvent.reconnectTimerFire :=
      fun hh => h (hh ▸ List.mem_cons_self e rest)
    have hrest : BinanceLifecycleEvent.reconnectTimerFire ∉ rest :=
      fun hh => h (List.mem_cons_of_mem e hh)
    rw [lifecycleRun, List.foldl_cons, ← lifecycleRun, ih _ hrest]
    cases e with
    | closeEvent => rfl
    | reconnectTimerFire => exact absurd rfl he
    | tickerFrame => rfl

/-- C9: the Binance close handler schedules exactly one reconnect
callback with the fixed 5000 ms delay, constructs no connection itself,
and as long as that timer has not fired (no `reconnectTimerFire` event
occurs), no new connection gets created. -/
theorem c9_close_schedules_single_reconnect (st : BinanceConnState)
    (evs : List BinanceLifecycleEvent)
    (h : BinanceLifecycleEvent.reconnectTimerFire ∉ evs) :
    (lifecycleStep st .closeEvent).pendingReconnects
        = st.pendingReconnects ++ [5000]
    ∧ (lifecycleStep st .closeEvent).connectionsCreated
        = st.connectionsCreated
    ∧ (lifecycleRun (lifecycleStep st .closeEvent) evs).connectionsCreated
        = st.connectionsCreated :=
  ⟨rfl, rfl, lifecycleRun_conns_const _ evs h⟩

/-- Witness for C9: from a fresh connection, a close followed by an
ordinary ticker frame creates no new connection while the 5000 ms timer
is pending. -/
theorem c9_close_schedules_single_reconnect_witness :
    (lifecycleRun (lifecycleStep ⟨[], 1⟩ .closeEvent)
        [.tickerFrame, .closeEvent]).connectionsCreated = 1 :=
  (c9_close_schedules_single_reconnect ⟨[], 1⟩
    [.tickerFrame, .closeEvent] (by decide)).2.2

/-- Witness for C5 as amended: the `NaN` ticker frame resolves to
BTC/USDC and `NaN` ends up stored. -/
theorem c5_amended_prices_stored_unvalidated_witness :
    ∃ sends, onBinanceMessage emptyServer (.parsed nanTickerMsg) "t"
        = .ok ({ emptyServer with lastBinancePrices :=
                   emptyServer.lastBinancePrices.set "BTC/USDC" JSNumber.nan }
              , sends)
          ∧ (emptyServer.lastBinancePrices.set "BTC/USDC"
              JSNumber.nan).get "BTC/USDC" = some JSNumber.nan :=
  (c5_amended_prices_stored_unvalidated emptyServer nanTickerMsg
    { c := .nan, s := "BTCUSDC" }
    { serumMarketAddress := "CVfYa8RGXnuDBeGmniCcdkBwoLqVxh92xB1JqgRQx3F"
    , binanceSymbol := "BTCUSDC", name := "BTC/USDC"
    , programId := "EUqojwWA2rd19FZrzeBncJsm38Jm1hEhE3zsmX3bRc2o" }
    "t" rfl (by decide)).1
